import Mathlib

/-!
Shallow embedding of the whoop-scraper OAuth2 token lifecycle, API client
pagination, ingestion orchestration and database upsert layer.

Timestamps are modelled as integers (seconds since an arbitrary epoch); a
Python `datetime` difference of `timedelta(minutes=5)` is 300 seconds.
Strings are Lean `String`s; Python's `None` for optional values is `Option`.
-/

namespace WhoopScraper

/-- OAuth2 token data, mirroring `OAuthTokens` in `auth.py`.
`expires_at` is an absolute timestamp in seconds. -/
structure OAuthTokens where
  access_token : String
  refresh_token : String
  expires_at : Int
  token_type : String := "bearer"
deriving DecidableEq, Repr

/-- `OAuthTokens.is_expired`: `datetime.now(UTC) >= (self.expires_at - timedelta(minutes=5))`,
with the current instant passed explicitly. -/
def OAuthTokens.is_expired (now : Int) (t : OAuthTokens) : Bool :=
  now ≥ t.expires_at - 5 * 60

/-- A token-endpoint JSON response, as consumed by
`OAuthTokens.from_token_response`: `expires_in` and `token_type` may be
absent from the response body. -/
structure TokenResponse where
  access_token : String
  refresh_token : String
  expires_in : Option Int
  token_type : Option String
deriving DecidableEq, Repr

/-- `OAuthTokens.from_token_response`: `expires_in` defaults to 3600 seconds,
`expires_at = now + expires_in`, `token_type` defaults to `"bearer"`. -/
def OAuthTokens.from_token_response (now : Int) (r : TokenResponse) : OAuthTokens :=
  { access_token := r.access_token
    refresh_token := r.refresh_token
    expires_at := now + r.expires_in.getD 3600
    token_type := r.token_type.getD "bearer" }

/-- The outcome captured by `OAuthCallbackHandler.do_GET` from the single
callback request: an `error` parameter, or a `code` together with an optional
`state` parameter, or neither (no usable callback arrived). -/
inductive CallbackOutcome where
  | noCallback
  | errorCb (msg : String)
  | codeCb (code : String) (state : Option String)
deriving DecidableEq, Repr

/-- `OAuthCallbackHandler.do_GET`: checks the `error` query parameter first,
then `code` (recording `state`, absent when missing); a request with neither
leaves the handler state empty, which the waiting flow sees as no callback. -/
def handleCallback (params : List (String × String)) : CallbackOutcome :=
  match List.lookup "error" params with
  | some e => .errorCb e
  | none =>
    match List.lookup "code" params with
    | some c => .codeCb c (List.lookup "state" params)
    | none => .noCallback

/-- Result of `WhoopAuth.authorize_interactive` after the listener resolved:
either one of the failure exceptions, or the flow reached the call to
`exchange_code` with the captured code. -/
inductive FlowResult where
  | authDenied (msg : String)
  | timedOut
  | stateMismatch
  | exchangeCalled (code : String)
deriving DecidableEq, Repr

/-- `WhoopAuth.authorize_interactive`, decision part after the callback
listener has resolved: raise on a captured `error`; raise (timeout) when no
code was captured; raise `StateMismatch` when the captured state differs
from the nonce generated at the start of the run; otherwise call
`exchange_code` with the captured code. -/
def authorize_interactive (expectedState : String) (cb : CallbackOutcome) : FlowResult :=
  match cb with
  | .errorCb e => .authDenied e
  | .noCallback => .timedOut
  | .codeCb c st => if st = some expectedState then .exchangeCalled c else .stateMismatch

/-- In-memory state of a `WhoopAuth` instance together with the content of
its token storage backend: `cached` is `self._tokens`, `stored` is what
`storage.load()` would return (`none` when storage is empty). -/
structure AuthState where
  cached : Option OAuthTokens
  stored : Option OAuthTokens
deriving DecidableEq, Repr

/-- The `ValueError` / HTTP failures raised by the token-lifecycle methods:
no token anywhere (`get_valid_token`), no stored credentials
(`refresh_tokens` called without a refresh token), or a non-2xx response
from the token endpoint during refresh. -/
inductive AuthError where
  | notAuthenticated
  | noStoredCredentials
  | refreshFailed
deriving DecidableEq, Repr

/-- The POST to the token endpoint inside `refresh_tokens`: the provider is
an oracle from the refresh token sent to an optional `TokenResponse`
(`none` models a non-2xx response, which `raise_for_status` turns into an
exception). On success the new tokens are persisted (`storage.save`) and
cached (`self._tokens = tokens`). -/
def refresh_with (now : Int) (resp : String → Option TokenResponse)
    (rt : String) : Except AuthError (AuthState × OAuthTokens) :=
  match resp rt with
  | none => .error .refreshFailed
  | some r =>
    let toks := OAuthTokens.from_token_response now r
    .ok (⟨some toks, some toks⟩, toks)

/-- `WhoopAuth.refresh_tokens`: when no explicit refresh token is given, the
stored token is loaded and its `refresh_token` used; with no stored token a
`ValueError` is raised. -/
def refresh_tokens (now : Int) (resp : String → Option TokenResponse)
    (st : AuthState) (refreshToken : Option String) :
    Except AuthError (AuthState × OAuthTokens) :=
  match refreshToken with
  | some rt => refresh_with now resp rt
  | none =>
    match st.stored with
    | none => .error .noStoredCredentials
    | some t => refresh_with now resp t.refresh_token

/-- Result of a successful `get_valid_token` call: the new manager state,
the access token returned, and whether a refresh was performed. -/
structure ValidTokenResult where
  state : AuthState
  access : String
  didRefresh : Bool
deriving DecidableEq, Repr

/-- The storage path of `WhoopAuth.get_valid_token`: load from storage,
fail (`ValueError`) when nothing is stored, refresh when the loaded token is
expired, cache the token and return its access token. -/
def get_valid_token_load (now : Int) (resp : String → Option TokenResponse)
    (st : AuthState) : Except AuthError ValidTokenResult :=
  match st.stored with
  | none => .error .notAuthenticated
  | some t =>
    if t.is_expired now then
      match refresh_tokens now resp st (some t.refresh_token) with
      | .error e => .error e
      | .ok (st', toks) => .ok ⟨st', toks.access_token, true⟩
    else .ok ⟨⟨some t, st.stored⟩, t.access_token, false⟩

/-- `WhoopAuth.get_valid_token`: the cached token is returned when present
and not expired, otherwise the storage path is taken. -/
def get_valid_token (now : Int) (resp : String → Option TokenResponse)
    (st : AuthState) : Except AuthError ValidTokenResult :=
  match st.cached with
  | some t =>
    if t.is_expired now then get_valid_token_load now resp st
    else .ok ⟨st, t.access_token, false⟩
  | none => get_valid_token_load now resp st

/-- Python string truthiness for settings values: the empty string is falsy,
so `settings.access_token and settings.refresh_token` requires both to be
nonempty. -/
def pyTruthyStr (s : String) : Bool :=
  s ≠ ""

/-- Python `value or default` on an optional string column
(`row[3] or "bearer"`): `None` and the empty string both yield the
default. -/
def pyOrStr (v : Option String) (d : String) : String :=
  match v with
  | none => d
  | some s => if s = "" then d else s

/-- A symmetric cipher as used by `DatabaseTokenStorage` (Fernet): two string
maps with decryption inverting encryption. -/
structure Cipher where
  enc : String → String
  dec : String → String
  dec_enc : ∀ s, dec (enc s) = s

/-- `DatabaseTokenStorage._encrypt`: the identity when no encryption key is
configured. -/
def db_encrypt (cipher : Option Cipher) (v : String) : String :=
  match cipher with
  | none => v
  | some c => c.enc v

/-- `DatabaseTokenStorage._decrypt`: the identity when no encryption key is
configured. -/
def db_decrypt (cipher : Option Cipher) (v : String) : String :=
  match cipher with
  | none => v
  | some c => c.dec v

/-- The single row of the `whoop_oauth_tokens` table (`token_type` is a
nullable column). -/
structure DbRow where
  access_token : String
  refresh_token : String
  expires_at : Int
  token_type : Option String
deriving DecidableEq, Repr

/-- `DatabaseTokenStorage.save`: upserts the singleton row, storing the two
token strings encrypted when a cipher is configured. -/
def db_save (cipher : Option Cipher) (t : OAuthTokens) : DbRow :=
  ⟨db_encrypt cipher t.access_token, db_encrypt cipher t.refresh_token,
   t.expires_at, some t.token_type⟩

/-- `DatabaseTokenStorage.load`: tries the database first (decrypting, with
`row[3] or "bearer"` for the token type); a missing row or a caught database
error falls back to environment bootstrap tokens, which are returned with
`expires_at` set to the current instant; otherwise `None`. The database
query is an `Except` value: `.error` models a caught `psycopg.Error`. -/
def db_load (now : Int) (cipher : Option Cipher)
    (dbQuery : Except Unit (Option DbRow)) (envAccess envRefresh : String) :
    Option OAuthTokens :=
  match dbQuery with
  | .ok (some row) =>
    some ⟨db_decrypt cipher row.access_token, db_decrypt cipher row.refresh_token,
          row.expires_at, pyOrStr row.token_type "bearer"⟩
  | .ok none =>
    if pyTruthyStr envAccess && pyTruthyStr envRefresh then
      some ⟨envAccess, envRefresh, now, "bearer"⟩
    else none
  | .error _ =>
    if pyTruthyStr envAccess && pyTruthyStr envRefresh then
      some ⟨envAccess, envRefresh, now, "bearer"⟩
    else none

/-- The JSON object written by `TokenStorage.save` via
`OAuthTokens.to_dict` (`token_type` optional to model
`data.get("token_type", "bearer")` in `from_dict`). -/
structure TokenDict where
  access_token : String
  refresh_token : String
  expires_at : Int
  token_type : Option String
deriving DecidableEq, Repr

/-- `OAuthTokens.to_dict`: all four fields are written, `expires_at` as its
ISO timestamp (modelled by the timestamp itself). -/
def OAuthTokens.to_dict (t : OAuthTokens) : TokenDict :=
  ⟨t.access_token, t.refresh_token, t.expires_at, some t.token_type⟩

/-- `OAuthTokens.from_dict`: `token_type` defaults to `"bearer"` when the
key is absent. -/
def OAuthTokens.from_dict (d : TokenDict) : OAuthTokens :=
  ⟨d.access_token, d.refresh_token, d.expires_at, d.token_type.getD "bearer"⟩

/-- Content of the token file: absent, unparsable
(`json.JSONDecodeError` / `KeyError`), or a stored token dict. -/
inductive FileState where
  | absent
  | malformed
  | content (d : TokenDict)
deriving DecidableEq, Repr

/-- `TokenStorage.save`: writes `to_dict` as JSON. -/
def file_save (t : OAuthTokens) : FileState :=
  .content t.to_dict

/-- `TokenStorage.load`: environment tokens take priority (with a synthetic
365-day expiry); otherwise a missing or malformed file yields `None`, and a
well-formed file is parsed with `from_dict`. -/
def file_load (now : Int) (envAccess envRefresh : String) (file : FileState) :
    Option OAuthTokens :=
  if pyTruthyStr envAccess && pyTruthyStr envRefresh then
    some ⟨envAccess, envRefresh, now + 365 * 86400, "bearer"⟩
  else
    match file with
    | .absent => none
    | .malformed => none
    | .content d => some (OAuthTokens.from_dict d)

/-- Python values as they appear in parsed JSON records: `none` is Python
`None` (JSON null), dictionaries are association lists. -/
inductive PyVal where
  | none
  | bool (b : Bool)
  | int (n : Int)
  | str (s : String)
  | dict (fields : List (String × PyVal))

/-- Python truthiness of a `PyVal` (`None`, `False`, `0`, `""` and `{}` are
falsy). -/
def pyTruthy (v : PyVal) : Bool :=
  match v with
  | .none => false
  | .bool b => b
  | .int n => n ≠ 0
  | .str s => s ≠ ""
  | .dict fields => !fields.isEmpty

/-- Python `v.get(k, default)`: raises (`.error`) when `v` is not a
dictionary, and never fails on a dictionary — a missing key yields the
default. -/
def pyGetD (v : PyVal) (k : String) (d : PyVal) : Except Unit PyVal :=
  match v with
  | .dict fields => .ok ((List.lookup k fields).getD d)
  | _ => .error ()

/-- Python `v.get(k)` (default `None`). -/
def pyGet (v : PyVal) (k : String) : Except Unit PyVal :=
  pyGetD v k .none

/-- The nested-object access pattern of the upsert functions:
`record.get(k, {}) or {}` — a missing or falsy (in particular `None`)
sub-object is replaced by the empty dictionary. -/
def subObj (v : PyVal) (k : String) : Except Unit PyVal := do
  let raw ← pyGetD v k (.dict [])
  pure (if pyTruthy raw then raw else .dict [])

/-- Shorthand for a successful `record.get(k)` on a known dictionary. -/
def pyRecGet (fields : List (String × PyVal)) (k : String) : PyVal :=
  (List.lookup k fields).getD .none

/-- Shorthand for a successful `record.get(k, default)` on a known
dictionary. -/
def pyRecGetD (fields : List (String × PyVal)) (k : String) (d : PyVal) : PyVal :=
  (List.lookup k fields).getD d

/-- The flattening of one cycle record into the SQL parameter dictionary of
`upsert_cycles` (`score = record.get("score", {}) or {}`, then per-field
`.get` extraction). -/
def flatten_cycle (record : PyVal) : Except Unit (List (String × PyVal)) := do
  let score ← subObj record "score"
  let idv ← pyGet record "id"
  let uid ← pyGetD record "user_id" (.str "unknown")
  let startv ← pyGet record "start"
  let endv ← pyGet record "end"
  let tz ← pyGet record "timezone_offset"
  let strain ← pyGet score "strain"
  let kilojoule ← pyGet score "kilojoule"
  let avgHr ← pyGet score "average_heart_rate"
  let maxHr ← pyGet score "max_heart_rate"
  pure [("id", idv), ("user_id", uid), ("start", startv), ("end", endv),
    ("timezone_offset", tz), ("strain", strain), ("kilojoule", kilojoule),
    ("average_heart_rate", avgHr), ("max_heart_rate", maxHr)]

/-- The flattening of one recovery record into the SQL parameter dictionary
of `upsert_recovery`. -/
def flatten_recovery (record : PyVal) : Except Unit (List (String × PyVal)) := do
  let score ← subObj record "score"
  let cycleId ← pyGet record "cycle_id"
  let uid ← pyGetD record "user_id" (.str "unknown")
  let sleepId ← pyGet record "sleep_id"
  let recoveryScore ← pyGet score "recovery_score"
  let restingHr ← pyGet score "resting_heart_rate"
  let hrv ← pyGet score "hrv_rmssd_milli"
  let spo2 ← pyGet score "spo2_percentage"
  let skinTemp ← pyGet score "skin_temp_celsius"
  pure [("cycle_id", cycleId), ("user_id", uid), ("sleep_id", sleepId),
    ("recovery_score", recoveryScore), ("resting_heart_rate", restingHr),
    ("hrv_rmssd_milli", hrv), ("spo2_percentage", spo2),
    ("skin_temp_celsius", skinTemp)]

/-- The flattening of one sleep record into the SQL parameter dictionary of
`upsert_sleep` (nested `stage_summary` and `sleep_needed` sub-objects of
`score`, each defaulted to the empty dictionary). -/
def flatten_sleep (record : PyVal) : Except Unit (List (String × PyVal)) := do
  let score ← subObj record "score"
  let stage ← subObj score "stage_summary"
  let needed ← subObj score "sleep_needed"
  let idv ← pyGet record "id"
  let uid ← pyGetD record "user_id" (.str "unknown")
  let startv ← pyGet record "start"
  let endv ← pyGet record "end"
  let tz ← pyGet record "timezone_offset"
  let nap ← pyGetD record "nap" (.bool false)
  let inBed ← pyGet stage "total_in_bed_time_milli"
  let awake ← pyGet stage "total_awake_time_milli"
  let noData ← pyGet stage "total_no_data_time_milli"
  let light ← pyGet stage "total_light_sleep_time_milli"
  let slowWave ← pyGet stage "total_slow_wave_sleep_time_milli"
  let rem ← pyGet stage "total_rem_sleep_time_milli"
  let cycleCount ← pyGet stage "sleep_cycle_count"
  let disturbance ← pyGet stage "disturbance_count"
  let baseline ← pyGet needed "baseline_milli"
  let fromDebt ← pyGet needed "need_from_sleep_debt_milli"
  let fromStrain ← pyGet needed "need_from_recent_strain_milli"
  let fromNap ← pyGet needed "need_from_recent_nap_milli"
  let respRate ← pyGet score "respiratory_rate"
  let perf ← pyGet score "sleep_performance_percentage"
  let consistency ← pyGet score "sleep_consistency_percentage"
  let efficiency ← pyGet score "sleep_efficiency_percentage"
  pure [("id", idv), ("user_id", uid), ("start", startv), ("end", endv),
    ("timezone_offset", tz), ("nap", nap),
    ("total_in_bed_time_milli", inBed), ("total_awake_time_milli", awake),
    ("total_no_data_time_milli", noData),
    ("total_light_sleep_time_milli", light),
    ("total_slow_wave_sleep_time_milli", slowWave),
    ("total_rem_sleep_time_milli", rem),
    ("sleep_cycle_count", cycleCount), ("disturbance_count", disturbance),
    ("baseline_milli", baseline), ("need_from_sleep_debt_milli", fromDebt),
    ("need_from_recent_strain_milli", fromStrain),
    ("need_from_recent_nap_milli", fromNap),
    ("respiratory_rate", respRate), ("sleep_performance_percentage", perf),
    ("sleep_consistency_percentage", consistency),
    ("sleep_efficiency_percentage", efficiency)]

/-- The flattening of one workout record into the SQL parameter dictionary
of `upsert_workouts` (nested `zone_duration` sub-object of `score`,
defaulted to the empty dictionary). -/
def flatten_workout (record : PyVal) : Except Unit (List (String × PyVal)) := do
  let score ← subObj record "score"
  let zone ← subObj score "zone_duration"
  let idv ← pyGet record "id"
  let uid ← pyGetD record "user_id" (.str "unknown")
  let startv ← pyGet record "start"
  let endv ← pyGet record "end"
  let tz ← pyGet record "timezone_offset"
  let sportId ← pyGet record "sport_id"
  let strain ← pyGet score "strain"
  let avgHr ← pyGet score "average_heart_rate"
  let maxHr ← pyGet score "max_heart_rate"
  let kilojoule ← pyGet score "kilojoule"
  let percentRecorded ← pyGet score "percent_recorded"
  let distance ← pyGet score "distance_meter"
  let altGain ← pyGet score "altitude_gain_meter"
  let altChange ← pyGet score "altitude_change_meter"
  let zoneZero ← pyGet zone "zone_zero_milli"
  let zoneOne ← pyGet zone "zone_one_milli"
  let zoneTwo ← pyGet zone "zone_two_milli"
  let zoneThree ← pyGet zone "zone_three_milli"
  let zoneFour ← pyGet zone "zone_four_milli"
  let zoneFive ← pyGet zone "zone_five_milli"
  pure [("id", idv), ("user_id", uid), ("start", startv), ("end", endv),
    ("timezone_offset", tz), ("sport_id", sportId),
    ("strain", strain), ("average_heart_rate", avgHr),
    ("max_heart_rate", maxHr), ("kilojoule", kilojoule),
    ("percent_recorded", percentRecorded), ("distance_meter", distance),
    ("altitude_gain_meter", altGain), ("altitude_change_meter", altChange),
    ("zone_zero_milli", zoneZero), ("zone_one_milli", zoneOne),
    ("zone_two_milli", zoneTwo), ("zone_three_milli", zoneThree),
    ("zone_four_milli", zoneFour), ("zone_five_milli", zoneFive)]

/-- `upsert_cycles`: an empty record list is a no-op returning 0 before any
cursor is opened; otherwise every record is flattened into an executed
parameter dictionary and the record count is returned. -/
def upsert_cycles (records : List PyVal) :
    Except Unit (List (List (String × PyVal)) × Nat) :=
  if records.isEmpty then .ok ([], 0)
  else do
    let executed ← records.mapM flatten_cycle
    pure (executed, records.length)

/-- `upsert_recovery`: empty input is a no-op returning 0. -/
def upsert_recovery (records : List PyVal) :
    Except Unit (List (List (String × PyVal)) × Nat) :=
  if records.isEmpty then .ok ([], 0)
  else do
    let executed ← records.mapM flatten_recovery
    pure (executed, records.length)

/-- `upsert_sleep`: empty input is a no-op returning 0. -/
def upsert_sleep (records : List PyVal) :
    Except Unit (List (List (String × PyVal)) × Nat) :=
  if records.isEmpty then .ok ([], 0)
  else do
    let executed ← records.mapM flatten_sleep
    pure (executed, records.length)

/-- `upsert_workouts`: empty input is a no-op returning 0. -/
def upsert_workouts (records : List PyVal) :
    Except Unit (List (List (String × PyVal)) × Nat) :=
  if records.isEmpty then .ok ([], 0)
  else do
    let executed ← records.mapM flatten_workout
    pure (executed, records.length)

/-- One page of a paginated endpoint response:
`records = data.get("records", [])` and `next_token = data.get("next_token")`. -/
structure Page where
  records : List PyVal
  next_token : Option String

/-- `WhoopAPIClient._get_paginated`: the provider is modelled by the
sequence of page responses it serves; each loop iteration issues one
request, accumulates the page's records, and continues only while the
returned `next_token` is truthy (`if not next_token: break` — absent and
empty-string tokens both stop). The result pairs the accumulated records
with the number of requests issued. -/
def get_paginated : List Page → List PyVal × Nat
  | [] => ([], 0)
  | p :: rest =>
    match p.next_token with
    | Option.none => (p.records, 1)
    | some t =>
      if t = "" then (p.records, 1)
      else
        let r := get_paginated rest
        (p.records ++ r.1, r.2 + 1)

/-- Per-category outcome of the `WhoopScraper` stats dictionary:
`{"success": True, "records": n}` or `{"success": False, "error": e}`. -/
inductive CatResult where
  | success (records : Nat)
  | failure (error : String)
deriving DecidableEq, Repr

/-- The effective outcome of each category's fetch+upsert body (everything
inside the per-category `try` block): a record count, or the raised
exception's message. -/
structure RunOutcomes where
  user_profile : Except String Unit
  body_measurement : Except String Unit
  cycles : Except String Nat
  recovery : Except String Nat
  sleep : Except String Nat
  workouts : Except String Nat

/-- The `try`/`except` wrapper of `_scrape_user_profile` and
`_scrape_body_measurement`: success records `records: 1`. -/
def tryScrapeUnit (out : Except String Unit) : CatResult :=
  match out with
  | .ok _ => .success 1
  | .error e => .failure e

/-- The `try`/`except` wrapper of the four counted categories: success
records the upsert count. -/
def tryScrapeCount (out : Except String Nat) : CatResult :=
  match out with
  | .ok n => .success n
  | .error e => .failure e

/-- `WhoopScraper.scrape_all`: the six categories are attempted in fixed
order, each wrapped in its own `try`/`except`, and the stats entries are
appended in that order. -/
def scrape_all (o : RunOutcomes) : List (String × CatResult) :=
  [("user_profile", tryScrapeUnit o.user_profile),
   ("body_measurement", tryScrapeUnit o.body_measurement),
   ("cycles", tryScrapeCount o.cycles),
   ("recovery", tryScrapeCount o.recovery),
   ("sleep", tryScrapeCount o.sleep),
   ("workouts", tryScrapeCount o.workouts)]

/-- Python truthiness of an optional string argument (`None` and `""` are
falsy). -/
def pyTruthyOptStr (s : Option String) : Bool :=
  match s with
  | Option.none => false
  | some str => pyTruthyStr str

/-- `get_date_range`: `end = date.today()`, `start = end - timedelta(days)`,
with calendar dates modelled as day ordinals. -/
def get_date_range (days : Int) (today : Int) : Int × Int :=
  (today - days, today)

/-- The window selection in `WhoopScraper.__init__`:
`if start_date and end_date:` use the explicit pair, otherwise compute the
default range from `days`. The left summand is an explicitly supplied pair
of date strings, the right summand a computed ordinal range. -/
def scrape_window (days : Int) (today : Int) (start_date end_date : Option String) :
    (String × String) ⊕ (Int × Int) :=
  if pyTruthyOptStr start_date && pyTruthyOptStr end_date then
    .inl (start_date.getD "", end_date.getD "")
  else
    .inr (get_date_range days today)

/-- Binding a successful `Except` computation just applies the
continuation. -/
theorem except_ok_bind {ε α β : Type} (a : α) (f : α → Except ε β) :
    (Except.ok a : Except ε α) >>= f = f a := rfl

/-- A missing or `None`-valued key under `record.get(k, {}) or {}` yields
the empty dictionary. -/
theorem subObj_absent (fields : List (String × PyVal)) (k : String)
    (h : List.lookup k fields = Option.none ∨
         List.lookup k fields = some PyVal.none) :
    subObj (.dict fields) k = .ok (.dict []) := by
  rcases h with h | h <;>
    simp [subObj, pyGetD, pyTruthy, h, except_ok_bind]

/-- A dictionary-valued key under `record.get(k, {}) or {}` is returned
unchanged (the empty dictionary maps to the empty dictionary). -/
theorem subObj_some_dict (fields : List (String × PyVal)) (k : String)
    (sf : List (String × PyVal))
    (h : List.lookup k fields = some (PyVal.dict sf)) :
    subObj (.dict fields) k = .ok (.dict sf) := by
  cases sf with
  | nil => simp [subObj, pyGetD, pyTruthy, h, except_ok_bind]
  | cons a l => simp [subObj, pyGetD, pyTruthy, h, except_ok_bind]

/-- C2: for every token T and instant `now`, `is_expired` is true iff
`now ≥ T.expires_at - 5 min`, and it is true at the boundary instant
`T.expires_at - 5 min` itself. -/
theorem is_expired_iff (now : Int) (t : OAuthTokens) :
    (t.is_expired now = true ↔ now ≥ t.expires_at - 5 * 60) ∧
    t.is_expired (t.expires_at - 5 * 60) = true := by
  constructor
  · simp [OAuthTokens.is_expired]
  · simp [OAuthTokens.is_expired]

/-- C3: whenever the callback delivers a code with a state value different
from the nonce generated for the run, `authorize_interactive` fails with the
state-mismatch (CSRF) error and token exchange is never invoked. -/
theorem authorize_interactive_state_mismatch
    (params : List (String × String)) (nonce c : String)
    (hNoErr : List.lookup "error" params = none)
    (hCode : List.lookup "code" params = some c)
    (hState : List.lookup "state" params ≠ some nonce) :
    authorize_interactive nonce (handleCallback params) = .stateMismatch ∧
    ∀ c', authorize_interactive nonce (handleCallback params) ≠ .exchangeCalled c' := by
  have hcb : handleCallback params = .codeCb c (List.lookup "state" params) := by
    simp [handleCallback, hNoErr, hCode]
  refine ⟨?_, ?_⟩
  · simp [hcb, authorize_interactive, hState]
  · intro c'
    simp [hcb, authorize_interactive, hState]

/-- C3 witness: a concrete callback carrying a code and a state `"evil"`
different from the nonce `"nonce123"` yields the state-mismatch failure and
never reaches token exchange. -/
theorem authorize_interactive_state_mismatch_witness :
    authorize_interactive "nonce123"
        (handleCallback [("code", "abc"), ("state", "evil")]) = .stateMismatch ∧
    ∀ c', authorize_interactive "nonce123"
        (handleCallback [("code", "abc"), ("state", "evil")]) ≠ .exchangeCalled c' :=
  authorize_interactive_state_mismatch [("code", "abc"), ("state", "evil")]
    "nonce123" "abc" (by decide) (by decide) (by decide)

/-- C1 counterexample: with an expired stored token and a refresh response
granting `expires_in = 0`, `get_valid_token` succeeds and returns the fresh
access token, yet the token it returns (and caches) is already expired at
the same instant — refuting "the access token it returns is never that of
an expired token". -/
theorem get_valid_token_can_return_expired :
    get_valid_token 0 (fun _ => some ⟨"new-access", "new-refresh", some 0, none⟩)
        ⟨none, some ⟨"old-access", "old-refresh", -10000, "bearer"⟩⟩ =
      .ok ⟨⟨some ⟨"new-access", "new-refresh", 0, "bearer"⟩,
            some ⟨"new-access", "new-refresh", 0, "bearer"⟩⟩, "new-access", true⟩ ∧
    OAuthTokens.is_expired 0 ⟨"new-access", "new-refresh", 0, "bearer"⟩ = true := by
  constructor
  · rfl
  · decide

/-- C1 (amended): `get_valid_token` returns the cached access token when a
cached token is held and not expired; otherwise it takes the storage path:
with empty storage it fails with the not-authenticated error, a stored
non-expired token is cached and returned, and a stored expired token forces
a refresh whose result is persisted and cached before its access token is
returned (a failing refresh propagates). Provided every refresh response
grants a lifetime above the 5-minute buffer, the returned access token is
never that of an expired token. -/
theorem get_valid_token_spec (now : Int) (resp : String → Option TokenResponse)
    (st : AuthState) :
    (∀ t, st.cached = some t → t.is_expired now = false →
      get_valid_token now resp st = .ok ⟨st, t.access_token, false⟩) ∧
    ((st.cached = none ∨ ∃ t, st.cached = some t ∧ t.is_expired now = true) →
      (st.stored = none → get_valid_token now resp st = .error .notAuthenticated) ∧
      (∀ t, st.stored = some t → t.is_expired now = false →
        get_valid_token now resp st = .ok ⟨⟨some t, some t⟩, t.access_token, false⟩) ∧
      (∀ t, st.stored = some t → t.is_expired now = true →
        (resp t.refresh_token = none →
          get_valid_token now resp st = .error .refreshFailed) ∧
        (∀ r, resp t.refresh_token = some r →
          get_valid_token now resp st =
            .ok ⟨⟨some (OAuthTokens.from_token_response now r),
                  some (OAuthTokens.from_token_response now r)⟩,
                 (OAuthTokens.from_token_response now r).access_token, true⟩))) ∧
    ((∀ rt r, resp rt = some r → 300 < r.expires_in.getD 3600) →
      ∀ res, get_valid_token now resp st = .ok res →
        ∃ t, res.state.cached = some t ∧ res.access = t.access_token ∧
          t.is_expired now = false) := by
  refine ⟨?_, ?_, ?_⟩
  · intro t hc hexp
    simp [get_valid_token, hc, hexp]
  · intro hmiss
    have hload : get_valid_token now resp st = get_valid_token_load now resp st := by
      rcases hmiss with h | ⟨t, hc, hexp⟩
      · simp [get_valid_token, h]
      · simp [get_valid_token, hc, hexp]
    refine ⟨?_, ?_, ?_⟩
    · intro hs
      simp [hload, get_valid_token_load, hs]
    · intro t hs hexp
      cases st with
      | mk cached stored =>
        simp only at hs
        subst hs
        simp [hload, get_valid_token_load, hexp]
    · intro t hs hexp
      constructor
      · intro hresp
        simp [hload, get_valid_token_load, hs, hexp, refresh_tokens, refresh_with, hresp]
      · intro r hresp
        simp [hload, get_valid_token_load, hs, hexp, refresh_tokens, refresh_with, hresp]
  · intro hresp res hok
    have fresh : ∀ rt r, resp rt = some r →
        (OAuthTokens.from_token_response now r).is_expired now = false := by
      intro rt r h
      have := hresp rt r h
      simp only [OAuthTokens.is_expired, OAuthTokens.from_token_response,
        decide_eq_false_iff_not, not_le]
      omega
    have hloadCase : ∀ res', get_valid_token_load now resp st = .ok res' →
        ∃ t, res'.state.cached = some t ∧ res'.access = t.access_token ∧
          t.is_expired now = false := by
      intro res' hok'
      unfold get_valid_token_load at hok'
      cases hstored : st.stored with
      | none => simp [hstored] at hok'
      | some t =>
        simp only [hstored] at hok'
        by_cases hexp : t.is_expired now
        · simp only [hexp, if_pos] at hok'
          cases hr : resp t.refresh_token with
          | none => simp [refresh_tokens, refresh_with, hr] at hok'
          | some r =>
            simp only [refresh_tokens, refresh_with, hr] at hok'
            cases hok'
            exact ⟨_, rfl, rfl, fresh _ _ hr⟩
        · simp only [hexp, if_neg, Bool.not_eq_true] at hok'
          simp only [Bool.not_eq_true] at hexp
          cases hok'
          exact ⟨t, rfl, rfl, hexp⟩
    unfold get_valid_token at hok
    cases hcached : st.cached with
    | none =>
      simp only [hcached] at hok
      exact hloadCase res hok
    | some t =>
      simp only [hcached] at hok
      by_cases hexp : t.is_expired now
      · simp only [hexp, if_pos] at hok
        exact hloadCase res hok
      · simp only [hexp, if_neg, Bool.not_eq_true] at hok
        simp only [Bool.not_eq_true] at hexp
        cases hok
        exact ⟨t, hcached, rfl, hexp⟩

/-- C1 witness: a concrete expired stored token is refreshed, and the
refreshed pair is both persisted and cached before its access token is
returned. -/
theorem get_valid_token_spec_witness :
    get_valid_token 0 (fun _ => some ⟨"a2", "r2", some 3600, none⟩)
        ⟨none, some ⟨"a1", "r1", 100, "bearer"⟩⟩ =
      .ok ⟨⟨some (OAuthTokens.from_token_response 0 ⟨"a2", "r2", some 3600, none⟩),
            some (OAuthTokens.from_token_response 0 ⟨"a2", "r2", some 3600, none⟩)⟩,
           (OAuthTokens.from_token_response 0 ⟨"a2", "r2", some 3600, none⟩).access_token,
           true⟩ :=
  (((get_valid_token_spec 0 (fun _ => some ⟨"a2", "r2", some 3600, none⟩)
      ⟨none, some ⟨"a1", "r1", 100, "bearer"⟩⟩).2.1
    (Or.inl rfl)).2.2 ⟨"a1", "r1", 100, "bearer"⟩ rfl (by decide)).2
    ⟨"a2", "r2", some 3600, none⟩ rfl

/-- C6: when the database query finds no token row and bootstrap access and
refresh tokens are present (nonempty) in the environment,
`DatabaseTokenStorage.load` returns the bootstrap token with
`expires_at = now ≤ now`, that token is expired at any instant at-or-after
`now`, and the next `get_valid_token` call on a manager with an empty cache
necessarily takes the refresh path, persisting and caching the refreshed
token (or propagating the refresh failure). -/
theorem db_load_bootstrap_forces_refresh (now nxt : Int) (cipher : Option Cipher)
    (dbQuery : Except Unit (Option DbRow)) (envA envR : String)
    (resp : String → Option TokenResponse)
    (hdb : dbQuery = .ok none) (hA : envA ≠ "") (hR : envR ≠ "")
    (hnow : now ≤ nxt) :
    db_load now cipher dbQuery envA envR = some ⟨envA, envR, now, "bearer"⟩ ∧
    (⟨envA, envR, now, "bearer"⟩ : OAuthTokens).expires_at ≤ now ∧
    OAuthTokens.is_expired nxt ⟨envA, envR, now, "bearer"⟩ = true ∧
    (resp envR = none →
      get_valid_token nxt resp ⟨none, some ⟨envA, envR, now, "bearer"⟩⟩ =
        .error .refreshFailed) ∧
    (∀ r, resp envR = some r →
      get_valid_token nxt resp ⟨none, some ⟨envA, envR, now, "bearer"⟩⟩ =
        .ok ⟨⟨some (OAuthTokens.from_token_response nxt r),
              some (OAuthTokens.from_token_response nxt r)⟩,
             (OAuthTokens.from_token_response nxt r).access_token, true⟩) := by
  have hexp : OAuthTokens.is_expired nxt ⟨envA, envR, now, "bearer"⟩ = true := by
    simp only [OAuthTokens.is_expired, decide_eq_true_eq]
    omega
  refine ⟨?_, ?_, hexp, ?_, ?_⟩
  · simp [db_load, hdb, pyTruthyStr, hA, hR]
  · simp
  · intro hresp
    simp [get_valid_token, get_valid_token_load, hexp, refresh_tokens, refresh_with, hresp]
  · intro r hresp
    simp [get_valid_token, get_valid_token_load, hexp, refresh_tokens, refresh_with, hresp]

/-- C6 witness: at a concrete empty database with bootstrap credentials
`("A", "R")`, load returns the immediately-expired bootstrap token and
the next `get_valid_token` call refreshes and persists. -/
theorem db_load_bootstrap_forces_refresh_witness :
    db_load 10 none (.ok none) "A" "R" = some ⟨"A", "R", 10, "bearer"⟩ ∧
    (⟨"A", "R", 10, "bearer"⟩ : OAuthTokens).expires_at ≤ 10 ∧
    OAuthTokens.is_expired 10 ⟨"A", "R", 10, "bearer"⟩ = true ∧
    ((fun _ => some ⟨"na", "nr", none, none⟩ : String → Option TokenResponse) "R" = none →
      get_valid_token 10 (fun _ => some ⟨"na", "nr", none, none⟩)
          ⟨none, some ⟨"A", "R", 10, "bearer"⟩⟩ = .error .refreshFailed) ∧
    (∀ r, (fun _ => some ⟨"na", "nr", none, none⟩ : String → Option TokenResponse) "R" = some r →
      get_valid_token 10 (fun _ => some ⟨"na", "nr", none, none⟩)
          ⟨none, some ⟨"A", "R", 10, "bearer"⟩⟩ =
        .ok ⟨⟨some (OAuthTokens.from_token_response 10 r),
              some (OAuthTokens.from_token_response 10 r)⟩,
             (OAuthTokens.from_token_response 10 r).access_token, true⟩) :=
  db_load_bootstrap_forces_refresh 10 10 none (.ok none) "A" "R"
    (fun _ => some ⟨"na", "nr", none, none⟩) rfl (by decide) (by decide) (by decide)

/-- C7 counterexample: for the unencrypted database variant and the token
`⟨"acc", "ref", 50, ""⟩` (empty `token_type`), `save` then `load` yields
`token_type = "bearer"` (the `row[3] or "bearer"` fallback), not the saved
token — refuting "equal in every field" for every Token. -/
theorem save_load_roundtrip_counterexample :
    db_load 0 none (.ok (some (db_save none ⟨"acc", "ref", 50, ""⟩))) "" "" ≠
      some ⟨"acc", "ref", 50, ""⟩ := by
  decide

/-- C7 (amended): `save` followed by `load` yields a token equal to the
saved one in every field — for the file variant provided no environment
bootstrap tokens are configured (their presence makes `load` return the
bootstrap token instead), and for the database variant in both encrypted
and unencrypted configurations provided the saved token's `token_type` is
nonempty (an empty one loads back as `"bearer"`). -/
theorem save_load_roundtrip :
    (∀ (now : Int) (envA envR : String) (t : OAuthTokens),
      pyTruthyStr envA = false ∨ pyTruthyStr envR = false →
      file_load now envA envR (file_save t) = some t) ∧
    (∀ (now : Int) (cipher : Option Cipher) (envA envR : String) (t : OAuthTokens),
      t.token_type ≠ "" →
      db_load now cipher (.ok (some (db_save cipher t))) envA envR = some t) := by
  constructor
  · intro now envA envR t henv
    rcases henv with h | h <;>
      simp [file_load, file_save, OAuthTokens.to_dict, OAuthTokens.from_dict, h]
  · intro now cipher envA envR t htt
    cases cipher with
    | none =>
      simp [db_load, db_save, db_encrypt, db_decrypt, pyOrStr, htt]
    | some c =>
      simp [db_load, db_save, db_encrypt, db_decrypt, pyOrStr, c.dec_enc, htt]

/-- C7 witness: a concrete token round-trips through the file variant with
no bootstrap environment tokens, and through the encrypted database variant
with a concrete cipher. -/
theorem save_load_roundtrip_witness :
    file_load 0 "" "" (file_save ⟨"a", "r", 7, "bearer"⟩) =
      some ⟨"a", "r", 7, "bearer"⟩ ∧
    db_load 0 (some ⟨fun s => s, fun s => s, fun _ => rfl⟩)
        (.ok (some (db_save
          (some ⟨fun s => s, fun s => s, fun _ => rfl⟩)
          ⟨"a", "r", 7, "bearer"⟩))) "" "" =
      some ⟨"a", "r", 7, "bearer"⟩ :=
  ⟨save_load_roundtrip.1 0 "" "" ⟨"a", "r", 7, "bearer"⟩ (Or.inl rfl),
   save_load_roundtrip.2 0
     (some ⟨fun s => s, fun s => s, fun _ => rfl⟩) "" ""
     ⟨"a", "r", 7, "bearer"⟩ (by decide)⟩

/-- C4: against a provider returning a truthy `next_token` on each of the
first k pages and none on the following page, `_get_paginated` issues
exactly k+1 requests and returns the concatenation of all pages' records,
whose length is the sum of all pages' record counts. -/
theorem get_paginated_pages (ps : List Page) (last : Page)
    (hps : ∀ p ∈ ps, pyTruthyOptStr p.next_token = true)
    (hlast : last.next_token = Option.none) :
    get_paginated (ps ++ [last]) =
      (((ps ++ [last]).map Page.records).flatten, ps.length + 1) ∧
    (get_paginated (ps ++ [last])).1.length =
      ((ps ++ [last]).map (fun p => p.records.length)).sum := by
  have main : get_paginated (ps ++ [last]) =
      (((ps ++ [last]).map Page.records).flatten, ps.length + 1) := by
    induction ps with
    | nil => simp [get_paginated, hlast]
    | cons p rest ih =>
      have hp := hps p (List.mem_cons_self p rest)
      have ih' := ih fun q hq => hps q (List.mem_cons_of_mem p hq)
      cases ht : p.next_token with
      | none => rw [ht] at hp; simp [pyTruthyOptStr] at hp
      | some t =>
        rw [ht] at hp
        have htne : t ≠ "" := by
          simpa [pyTruthyOptStr, pyTruthyStr] using hp
        simp [get_paginated, ht, htne, ih']
  refine ⟨main, ?_⟩
  rw [main]
  simp [List.length_flatten, List.map_map, Function.comp_def]

/-- C4 witness: two pages carrying next tokens followed by a final page
without one yield three requests and the four accumulated records. -/
theorem get_paginated_pages_witness :
    get_paginated ([⟨[PyVal.int 1, PyVal.int 2], some "t1"⟩,
        ⟨[PyVal.int 3], some "t2"⟩] ++ [⟨[PyVal.int 4], Option.none⟩]) =
      ((([⟨[PyVal.int 1, PyVal.int 2], some "t1"⟩, ⟨[PyVal.int 3], some "t2"⟩,
         ⟨[PyVal.int 4], Option.none⟩] : List Page).map Page.records).flatten, 3) ∧
    (get_paginated ([⟨[PyVal.int 1, PyVal.int 2], some "t1"⟩,
        ⟨[PyVal.int 3], some "t2"⟩] ++ [⟨[PyVal.int 4], Option.none⟩])).1.length =
      (([⟨[PyVal.int 1, PyVal.int 2], some "t1"⟩, ⟨[PyVal.int 3], some "t2"⟩,
         ⟨[PyVal.int 4], Option.none⟩] : List Page).map
        (fun p => p.records.length)).sum :=
  get_paginated_pages
    [⟨[PyVal.int 1, PyVal.int 2], some "t1"⟩, ⟨[PyVal.int 3], some "t2"⟩]
    ⟨[PyVal.int 4], Option.none⟩ (by decide) rfl

/-- Every `tryScrapeUnit` result is a record count or an error string. -/
theorem tryScrapeUnit_cases (out : Except String Unit) :
    (∃ n, tryScrapeUnit out = .success n) ∨
    (∃ e, tryScrapeUnit out = .failure e) := by
  cases out with
  | ok u => exact Or.inl ⟨1, rfl⟩
  | error e => exact Or.inr ⟨e, rfl⟩

/-- Every `tryScrapeCount` result is a record count or an error string. -/
theorem tryScrapeCount_cases (out : Except String Nat) :
    (∃ n, tryScrapeCount out = .success n) ∨
    (∃ e, tryScrapeCount out = .failure e) := by
  cases out with
  | ok n => exact Or.inl ⟨n, rfl⟩
  | error e => exact Or.inr ⟨e, rfl⟩

/-- C5: the orchestrator attempts the categories in the order user profile,
body measurement, cycles, recovery, sleep, workouts; a failure in any
category is recorded as that category's failure entry with its error
string while success records a count; all categories appear in the result
regardless of which ones failed, each with either a record count or an
error string. -/
theorem scrape_all_spec (o : RunOutcomes) :
    (scrape_all o).map Prod.fst =
      ["user_profile", "body_measurement", "cycles", "recovery", "sleep",
       "workouts"] ∧
    (∀ e, o.user_profile = .error e →
      List.lookup "user_profile" (scrape_all o) = some (.failure e)) ∧
    (o.user_profile = .ok () →
      List.lookup "user_profile" (scrape_all o) = some (.success 1)) ∧
    (∀ e, o.body_measurement = .error e →
      List.lookup "body_measurement" (scrape_all o) = some (.failure e)) ∧
    (o.body_measurement = .ok () →
      List.lookup "body_measurement" (scrape_all o) = some (.success 1)) ∧
    (∀ e, o.cycles = .error e →
      List.lookup "cycles" (scrape_all o) = some (.failure e)) ∧
    (∀ n, o.cycles = .ok n →
      List.lookup "cycles" (scrape_all o) = some (.success n)) ∧
    (∀ e, o.recovery = .error e →
      List.lookup "recovery" (scrape_all o) = some (.failure e)) ∧
    (∀ n, o.recovery = .ok n →
      List.lookup "recovery" (scrape_all o) = some (.success n)) ∧
    (∀ e, o.sleep = .error e →
      List.lookup "sleep" (scrape_all o) = some (.failure e)) ∧
    (∀ n, o.sleep = .ok n →
      List.lookup "sleep" (scrape_all o) = some (.success n)) ∧
    (∀ e, o.workouts = .error e →
      List.lookup "workouts" (scrape_all o) = some (.failure e)) ∧
    (∀ n, o.workouts = .ok n →
      List.lookup "workouts" (scrape_all o) = some (.success n)) ∧
    (∀ name, name ∈ (scrape_all o).map Prod.fst →
      ∃ r, List.lookup name (scrape_all o) = some r ∧
        ((∃ n, r = CatResult.success n) ∨ (∃ e, r = CatResult.failure e))) := by
  refine ⟨rfl, ?_, ?_, ?_, ?_, ?_, ?_, ?_, ?_, ?_, ?_, ?_, ?_, ?_⟩
  · intro e h; simp [scrape_all, tryScrapeUnit, h, List.lookup]
  · intro h; simp [scrape_all, tryScrapeUnit, h, List.lookup]
  · intro e h; simp [scrape_all, tryScrapeUnit, h, List.lookup]
  · intro h; simp [scrape_all, tryScrapeUnit, h, List.lookup]
  · intro e h; simp [scrape_all, tryScrapeCount, h, List.lookup]
  · intro n h; simp [scrape_all, tryScrapeCount, h, List.lookup]
  · intro e h; simp [scrape_all, tryScrapeCount, h, List.lookup]
  · intro n h; simp [scrape_all, tryScrapeCount, h, List.lookup]
  · intro e h; simp [scrape_all, tryScrapeCount, h, List.lookup]
  · intro n h; simp [scrape_all, tryScrapeCount, h, List.lookup]
  · intro e h; simp [scrape_all, tryScrapeCount, h, List.lookup]
  · intro n h; simp [scrape_all, tryScrapeCount, h, List.lookup]
  · intro name hname
    simp only [scrape_all, List.map, List.mem_cons, List.not_mem_nil,
      or_false] at hname
    rcases hname with h | h | h | h | h | h <;> subst h
    · exact ⟨tryScrapeUnit o.user_profile, rfl, tryScrapeUnit_cases _⟩
    · exact ⟨tryScrapeUnit o.body_measurement, rfl, tryScrapeUnit_cases _⟩
    · exact ⟨tryScrapeCount o.cycles, rfl, tryScrapeCount_cases _⟩
    · exact ⟨tryScrapeCount o.recovery, rfl, tryScrapeCount_cases _⟩
    · exact ⟨tryScrapeCount o.sleep, rfl, tryScrapeCount_cases _⟩
    · exact ⟨tryScrapeCount o.workouts, rfl, tryScrapeCount_cases _⟩

/-- C5 witness: with profile succeeding, cycles raising a network error and
the remaining categories succeeding, the result keeps the fixed category
order, reports the cycles failure with its error string, and still contains
successful sleep and workouts entries. -/
theorem scrape_all_spec_witness :
    (scrape_all ⟨.ok (), .ok (), .error "network error", .ok 2, .ok 3, .ok 4⟩).map
        Prod.fst =
      ["user_profile", "body_measurement", "cycles", "recovery", "sleep",
       "workouts"] ∧
    List.lookup "user_profile"
        (scrape_all ⟨.ok (), .ok (), .error "network error", .ok 2, .ok 3, .ok 4⟩) =
      some (.success 1) ∧
    List.lookup "cycles"
        (scrape_all ⟨.ok (), .ok (), .error "network error", .ok 2, .ok 3, .ok 4⟩) =
      some (.failure "network error") ∧
    List.lookup "sleep"
        (scrape_all ⟨.ok (), .ok (), .error "network error", .ok 2, .ok 3, .ok 4⟩) =
      some (.success 3) ∧
    List.lookup "workouts"
        (scrape_all ⟨.ok (), .ok (), .error "network error", .ok 2, .ok 3, .ok 4⟩) =
      some (.success 4) := by
  obtain ⟨h1, h2, h3, h4, h5, h6, h7, h8, h9, h10, h11, h12, h13, h14⟩ :=
    scrape_all_spec ⟨.ok (), .ok (), .error "network error", .ok 2, .ok 3, .ok 4⟩
  exact ⟨h1, h3 rfl, h6 "network error" rfl, h11 3 rfl, h13 4 rfl⟩

/-- C9: each multi-record upsert function called on the empty record list
executes no database operation and returns 0. -/
theorem upsert_empty_records :
    upsert_cycles [] = .ok ([], 0) ∧ upsert_recovery [] = .ok ([], 0) ∧
    upsert_sleep [] = .ok ([], 0) ∧ upsert_workouts [] = .ok ([], 0) :=
  ⟨rfl, rfl, rfl, rfl⟩

/-- C10: the explicit start/end pair is used exactly when both are truthy;
when either is missing the window is the N-day default
`(today - N, today)`; for N ≥ 0 the default window's start is at-or-before
its end. -/
theorem scrape_window_spec (days today : Int) (s e : Option String) :
    (pyTruthyOptStr s = true → pyTruthyOptStr e = true →
      scrape_window days today s e = .inl (s.getD "", e.getD "")) ∧
    (pyTruthyOptStr s = false ∨ pyTruthyOptStr e = false →
      scrape_window days today s e = .inr (today - days, today)) ∧
    (0 ≤ days → today - days ≤ today) := by
  refine ⟨?_, ?_, ?_⟩
  · intro hs he
    simp [scrape_window, hs, he]
  · intro h
    rcases h with h | h <;> simp [scrape_window, get_date_range, h]
  · intro h
    omega

/-- C10 witness: with only a start date supplied, both explicit dates are
ignored and the 7-day default window ending today is used; its start is
at-or-before its end. -/
theorem scrape_window_spec_witness :
    scrape_window 7 100 (some "2024-01-01") Option.none = .inr (93, 100) ∧
    (93 : Int) ≤ 100 :=
  ⟨(scrape_window_spec 7 100 (some "2024-01-01") Option.none).2.1 (Or.inr rfl),
   (scrape_window_spec 7 100 (some "2024-01-01") Option.none).2.2 (by decide)⟩

/-- C8: when a nested sub-object (`score` for cycles, sleep and workouts;
`stage_summary` and `sleep_needed` inside a sleep score; `zone_duration`
inside a workout score) is absent or null, the flattening substitutes the
empty dictionary, so field extraction succeeds and every field derived from
the missing sub-object is the absent value `None`. -/
theorem flatten_nested_defaults :
    (∀ fields : List (String × PyVal),
      (List.lookup "score" fields = Option.none ∨
       List.lookup "score" fields = some PyVal.none) →
      flatten_cycle (.dict fields) = .ok
        [("id", pyRecGet fields "id"),
         ("user_id", pyRecGetD fields "user_id" (.str "unknown")),
         ("start", pyRecGet fields "start"), ("end", pyRecGet fields "end"),
         ("timezone_offset", pyRecGet fields "timezone_offset"),
         ("strain", PyVal.none), ("kilojoule", PyVal.none),
         ("average_heart_rate", PyVal.none), ("max_heart_rate", PyVal.none)]) ∧
    (∀ fields : List (String × PyVal),
      (List.lookup "score" fields = Option.none ∨
       List.lookup "score" fields = some PyVal.none) →
      flatten_sleep (.dict fields) = .ok
        [("id", pyRecGet fields "id"),
         ("user_id", pyRecGetD fields "user_id" (.str "unknown")),
         ("start", pyRecGet fields "start"), ("end", pyRecGet fields "end"),
         ("timezone_offset", pyRecGet fields "timezone_offset"),
         ("nap", pyRecGetD fields "nap" (.bool false)),
         ("total_in_bed_time_milli", PyVal.none),
         ("total_awake_time_milli", PyVal.none),
         ("total_no_data_time_milli", PyVal.none),
         ("total_light_sleep_time_milli", PyVal.none),
         ("total_slow_wave_sleep_time_milli", PyVal.none),
         ("total_rem_sleep_time_milli", PyVal.none),
         ("sleep_cycle_count", PyVal.none), ("disturbance_count", PyVal.none),
         ("baseline_milli", PyVal.none),
         ("need_from_sleep_debt_milli", PyVal.none),
         ("need_from_recent_strain_milli", PyVal.none),
         ("need_from_recent_nap_milli", PyVal.none),
         ("respiratory_rate", PyVal.none),
         ("sleep_performance_percentage", PyVal.none),
         ("sleep_consistency_percentage", PyVal.none),
         ("sleep_efficiency_percentage", PyVal.none)]) ∧
    (∀ fields : List (String × PyVal),
      (List.lookup "score" fields = Option.none ∨
       List.lookup "score" fields = some PyVal.none) →
      flatten_workout (.dict fields) = .ok
        [("id", pyRecGet fields "id"),
         ("user_id", pyRecGetD fields "user_id" (.str "unknown")),
         ("start", pyRecGet fields "start"), ("end", pyRecGet fields "end"),
         ("timezone_offset", pyRecGet fields "timezone_offset"),
         ("sport_id", pyRecGet fields "sport_id"),
         ("strain", PyVal.none), ("average_heart_rate", PyVal.none),
         ("max_heart_rate", PyVal.none), ("kilojoule", PyVal.none),
         ("percent_recorded", PyVal.none), ("distance_meter", PyVal.none),
         ("altitude_gain_meter", PyVal.none),
         ("altitude_change_meter", PyVal.none),
         ("zone_zero_milli", PyVal.none), ("zone_one_milli", PyVal.none),
         ("zone_two_milli", PyVal.none), ("zone_three_milli", PyVal.none),
         ("zone_four_milli", PyVal.none), ("zone_five_milli", PyVal.none)]) ∧
    (∀ (fields sf : List (String × PyVal)),
      List.lookup "score" fields = some (PyVal.dict sf) →
      (List.lookup "stage_summary" sf = Option.none ∨
       List.lookup "stage_summary" sf = some PyVal.none) →
      (List.lookup "sleep_needed" sf = Option.none ∨
       List.lookup "sleep_needed" sf = some PyVal.none) →
      flatten_sleep (.dict fields) = .ok
        [("id", pyRecGet fields "id"),
         ("user_id", pyRecGetD fields "user_id" (.str "unknown")),
         ("start", pyRecGet fields "start"), ("end", pyRecGet fields "end"),
         ("timezone_offset", pyRecGet fields "timezone_offset"),
         ("nap", pyRecGetD fields "nap" (.bool false)),
         ("total_in_bed_time_milli", PyVal.none),
         ("total_awake_time_milli", PyVal.none),
         ("total_no_data_time_milli", PyVal.none),
         ("total_light_sleep_time_milli", PyVal.none),
         ("total_slow_wave_sleep_time_milli", PyVal.none),
         ("total_rem_sleep_time_milli", PyVal.none),
         ("sleep_cycle_count", PyVal.none), ("disturbance_count", PyVal.none),
         ("baseline_milli", PyVal.none),
         ("need_from_sleep_debt_milli", PyVal.none),
         ("need_from_recent_strain_milli", PyVal.none),
         ("need_from_recent_nap_milli", PyVal.none),
         ("respiratory_rate", pyRecGet sf "respiratory_rate"),
         ("sleep_performance_percentage",
           pyRecGet sf "sleep_performance_percentage"),
         ("sleep_consistency_percentage",
           pyRecGet sf "sleep_consistency_percentage"),
         ("sleep_efficiency_percentage",
           pyRecGet sf "sleep_efficiency_percentage")]) ∧
    (∀ (fields sf : List (String × PyVal)),
      List.lookup "score" fields = some (PyVal.dict sf) →
      (List.lookup "zone_duration" sf = Option.none ∨
       List.lookup "zone_duration" sf = some PyVal.none) →
      flatten_workout (.dict fields) = .ok
        [("id", pyRecGet fields "id"),
         ("user_id", pyRecGetD fields "user_id" (.str "unknown")),
         ("start", pyRecGet fields "start"), ("end", pyRecGet fields "end"),
         ("timezone_offset", pyRecGet fields "timezone_offset"),
         ("sport_id", pyRecGet fields "sport_id"),
         ("strain", pyRecGet sf "strain"),
         ("average_heart_rate", pyRecGet sf "average_heart_rate"),
         ("max_heart_rate", pyRecGet sf "max_heart_rate"),
         ("kilojoule", pyRecGet sf "kilojoule"),
         ("percent_recorded", pyRecGet sf "percent_recorded"),
         ("distance_meter", pyRecGet sf "distance_meter"),
         ("altitude_gain_meter", pyRecGet sf "altitude_gain_meter"),
         ("altitude_change_meter", pyRecGet sf "altitude_change_meter"),
         ("zone_zero_milli", PyVal.none), ("zone_one_milli", PyVal.none),
         ("zone_two_milli", PyVal.none), ("zone_three_milli", PyVal.none),
         ("zone_four_milli", PyVal.none), ("zone_five_milli", PyVal.none)]) := by
  refine ⟨?_, ?_, ?_, ?_, ?_⟩
  · intro fields h
    have hscore := subObj_absent fields "score" h
    simp only [flatten_cycle, hscore, except_ok_bind, pyGet, pyGetD,
      pyRecGet, pyRecGetD]
    rfl
  · intro fields h
    have hscore := subObj_absent fields "score" h
    simp only [flatten_sleep, hscore, except_ok_bind, pyGet, pyGetD,
      pyRecGet, pyRecGetD]
    rfl
  · intro fields h
    have hscore := subObj_absent fields "score" h
    simp only [flatten_workout, hscore, except_ok_bind, pyGet, pyGetD,
      pyRecGet, pyRecGetD]
    rfl
  · intro fields sf hscoreEq hstage hneeded
    have hscore := subObj_some_dict fields "score" sf hscoreEq
    have hst := subObj_absent sf "stage_summary" hstage
    have hnd := subObj_absent sf "sleep_needed" hneeded
    simp only [flatten_sleep, hscore, hst, hnd, except_ok_bind, pyGet,
      pyGetD, pyRecGet, pyRecGetD]
    rfl
  · intro fields sf hscoreEq hzone
    have hscore := subObj_some_dict fields "score" sf hscoreEq
    have hz := subObj_absent sf "zone_duration" hzone
    simp only [flatten_workout, hscore, hz, except_ok_bind, pyGet, pyGetD,
      pyRecGet, pyRecGetD]
    rfl

/-- C8 witness: concrete records — an empty record for the three
score-absent cases, and a record whose score is the empty dictionary for
the inner stage/needed/zone cases — flatten successfully with all
sub-object-derived fields absent. -/
theorem flatten_nested_defaults_witness :
    flatten_cycle (.dict []) = .ok
      [("id", pyRecGet [] "id"),
       ("user_id", pyRecGetD [] "user_id" (.str "unknown")),
       ("start", pyRecGet [] "start"), ("end", pyRecGet [] "end"),
       ("timezone_offset", pyRecGet [] "timezone_offset"),
       ("strain", PyVal.none), ("kilojoule", PyVal.none),
       ("average_heart_rate", PyVal.none), ("max_heart_rate", PyVal.none)] ∧
    flatten_sleep (.dict []) = .ok
      [("id", pyRecGet [] "id"),
       ("user_id", pyRecGetD [] "user_id" (.str "unknown")),
       ("start", pyRecGet [] "start"), ("end", pyRecGet [] "end"),
       ("timezone_offset", pyRecGet [] "timezone_offset"),
       ("nap", pyRecGetD [] "nap" (.bool false)),
       ("total_in_bed_time_milli", PyVal.none),
       ("total_awake_time_milli", PyVal.none),
       ("total_no_data_time_milli", PyVal.none),
       ("total_light_sleep_time_milli", PyVal.none),
       ("total_slow_wave_sleep_time_milli", PyVal.none),
       ("total_rem_sleep_time_milli", PyVal.none),
       ("sleep_cycle_count", PyVal.none), ("disturbance_count", PyVal.none),
       ("baseline_milli", PyVal.none),
       ("need_from_sleep_debt_milli", PyVal.none),
       ("need_from_recent_strain_milli", PyVal.none),
       ("need_from_recent_nap_milli", PyVal.none),
       ("respiratory_rate", PyVal.none),
       ("sleep_performance_percentage", PyVal.none),
       ("sleep_consistency_percentage", PyVal.none),
       ("sleep_efficiency_percentage", PyVal.none)] ∧
    flatten_workout (.dict []) = .ok
      [("id", pyRecGet [] "id"),
       ("user_id", pyRecGetD [] "user_id" (.str "unknown")),
       ("start", pyRecGet [] "start"), ("end", pyRecGet [] "end"),
       ("timezone_offset", pyRecGet [] "timezone_offset"),
       ("sport_id", pyRecGet [] "sport_id"),
       ("strain", PyVal.none), ("average_heart_rate", PyVal.none),
       ("max_heart_rate", PyVal.none), ("kilojoule", PyVal.none),
       ("percent_recorded", PyVal.none), ("distance_meter", PyVal.none),
       ("altitude_gain_meter", PyVal.none),
       ("altitude_change_meter", PyVal.none),
       ("zone_zero_milli", PyVal.none), ("zone_one_milli", PyVal.none),
       ("zone_two_milli", PyVal.none), ("zone_three_milli", PyVal.none),
       ("zone_four_milli", PyVal.none), ("zone_five_milli", PyVal.none)] ∧
    flatten_sleep (.dict [("score", PyVal.dict [])]) = .ok
      [("id", pyRecGet [("score", PyVal.dict [])] "id"),
       ("user_id", pyRecGetD [("score", PyVal.dict [])] "user_id" (.str "unknown")),
       ("start", pyRecGet [("score", PyVal.dict [])] "start"),
       ("end", pyRecGet [("score", PyVal.dict [])] "end"),
       ("timezone_offset", pyRecGet [("score", PyVal.dict [])] "timezone_offset"),
       ("nap", pyRecGetD [("score", PyVal.dict [])] "nap" (.bool false)),
       ("total_in_bed_time_milli", PyVal.none),
       ("total_awake_time_milli", PyVal.none),
       ("total_no_data_time_milli", PyVal.none),
       ("total_light_sleep_time_milli", PyVal.none),
       ("total_slow_wave_sleep_time_milli", PyVal.none),
       ("total_rem_sleep_time_milli", PyVal.none),
       ("sleep_cycle_count", PyVal.none), ("disturbance_count", PyVal.none),
       ("baseline_milli", PyVal.none),
       ("need_from_sleep_debt_milli", PyVal.none),
       ("need_from_recent_strain_milli", PyVal.none),
       ("need_from_recent_nap_milli", PyVal.none),
       ("respiratory_rate", pyRecGet [] "respiratory_rate"),
       ("sleep_performance_percentage", pyRecGet [] "sleep_performance_percentage"),
       ("sleep_consistency_percentage", pyRecGet [] "sleep_consistency_percentage"),
       ("sleep_efficiency_percentage", pyRecGet [] "sleep_efficiency_percentage")] ∧
    flatten_workout (.dict [("score", PyVal.dict [])]) = .ok
      [("id", pyRecGet [("score", PyVal.dict [])] "id"),
       ("user_id", pyRecGetD [("score", PyVal.dict [])] "user_id" (.str "unknown")),
       ("start", pyRecGet [("score", PyVal.dict [])] "start"),
       ("end", pyRecGet [("score", PyVal.dict [])] "end"),
       ("timezone_offset", pyRecGet [("score", PyVal.dict [])] "timezone_offset"),
       ("sport_id", pyRecGet [("score", PyVal.dict [])] "sport_id"),
       ("strain", pyRecGet [] "strain"),
       ("average_heart_rate", pyRecGet [] "average_heart_rate"),
       ("max_heart_rate", pyRecGet [] "max_heart_rate"),
       ("kilojoule", pyRecGet [] "kilojoule"),
       ("percent_recorded", pyRecGet [] "percent_recorded"),
       ("distance_meter", pyRecGet [] "distance_meter"),
       ("altitude_gain_meter", pyRecGet [] "altitude_gain_meter"),
       ("altitude_change_meter", pyRecGet [] "altitude_change_meter"),
       ("zone_zero_milli", PyVal.none), ("zone_one_milli", PyVal.none),
       ("zone_two_milli", PyVal.none), ("zone_three_milli", PyVal.none),
       ("zone_four_milli", PyVal.none), ("zone_five_milli", PyVal.none)] :=
  ⟨flatten_nested_defaults.1 [] (Or.inl rfl),
   flatten_nested_defaults.2.1 [] (Or.inl rfl),
   flatten_nested_defaults.2.2.1 [] (Or.inl rfl),
   flatten_nested_defaults.2.2.2.1 [("score", PyVal.dict [])] [] rfl
     (Or.inl rfl) (Or.inl rfl),
   flatten_nested_defaults.2.2.2.2 [("score", PyVal.dict [])] [] rfl
     (Or.inl rfl)⟩

end WhoopScraper
